import Mathlib

/-!
Verification of the annotator-store Elasticsearch layer
(`annotator/elasticsearch.py`).

The Python module is embedded shallowly:

* JSON-like values (the bodies exchanged with the engine) are the inductive
  type `JVal`; Python dicts become association lists (`Doc`) with lookup,
  membership and update operations matching dict semantics (`dictGet`,
  `dictContains`, `dictSet`).
* The pure query builder `_build_query` and the classmethod
  `Model._build_query` are direct translations.
* Stateful operations (`save`, `fetch`, `create_all`) are functions of the
  document plus explicit parameters standing for the engine call outcomes
  (the assigned id, the raised exception class, the current timestamps),
  returning the request issued and the resulting state.
* Exceptions are values: `ESExc` distinguishes `RequestError` (carrying its
  `error` string, which the code inspects by prefix), `NotFoundError`, and
  any other transport exception; a propagated exception becomes a `raised`
  result constructor.
-/

set_option maxRecDepth 65536

/-- JSON-like values: the bodies sent to and received from the engine. -/
inductive JVal where
  | str (s : String)
  | num (n : Int)
  | bool (b : Bool)
  | obj (fields : List (String × JVal))
  | arr (items : List JVal)

/-- A Python dict with string keys, as an association list (real dicts have
no duplicate keys; all operations below act on the first occurrence, so the
embedding agrees with dict semantics on duplicate-free lists). -/
abbrev Doc := List (String × JVal)

/-- Dict lookup `d[k]` (as `Option`). -/
def dictGet : Doc → String → Option JVal
  | [], _ => none
  | kv :: rest, k => if kv.1 == k then some kv.2 else dictGet rest k

/-- Dict membership `k in d`. -/
def dictContains : Doc → String → Bool
  | [], _ => false
  | kv :: rest, k => kv.1 == k || dictContains rest k

/-- Dict update `d[k] = v`: replace the binding if the key is present,
otherwise append a new binding. -/
def dictSet : Doc → String → JVal → Doc
  | [], k, v => [(k, v)]
  | kv :: rest, k, v => if kv.1 == k then (kv.1, v) :: rest else kv :: dictSet rest k v

/-- Lookup of a key inside a `JVal.obj`. -/
def objGet (j : JVal) (k : String) : Option JVal :=
  match j with
  | .obj fields =>
    match fields.find? (fun kv => kv.1 == k) with
    | some kv => some kv.2
    | none => none
  | _ => none

/-- `RESULTS_MAX_SIZE` from the source. -/
def RESULTS_MAX_SIZE : Int := 200

/-- `RESULTS_DEFAULT_SIZE` from the source. -/
def RESULTS_DEFAULT_SIZE : Int := 20

/-- Module-level `_build_query(query, offset, limit)`: one match clause per
field/value pair; an empty clause list is replaced by a single `match_all`
clause; the result carries `sort`, `from`, `size` and `query` keys. -/
def _build_query (query : Doc) (offset limit : Int) : Doc :=
  let match_clauses := query.map (fun kv => JVal.obj [("match", JVal.obj [kv])])
  let match_clauses :=
    if match_clauses.length == 0 then
      match_clauses ++ [JVal.obj [("match_all", JVal.obj [])]]
    else
      match_clauses
  [("sort", JVal.arr [JVal.obj [("updated", JVal.obj [
      ("order", JVal.str "desc"),
      ("ignore_unmapped", JVal.bool true)])]]),
   ("from", JVal.num (max 0 offset)),
   ("size", JVal.num (min RESULTS_MAX_SIZE (max 0 limit))),
   ("query", JVal.obj [("bool", JVal.obj [("must", JVal.arr match_clauses)])])]

/-- Classmethod `_Model._build_query`: substitutes the defaults `0`, `20`
and `{}` for unsupplied (`None`) arguments, then delegates to the
module-level `_build_query`. -/
def Model_build_query (query : Option Doc) (offset limit : Option Int) : Doc :=
  let offset := offset.getD 0
  let limit := limit.getD RESULTS_DEFAULT_SIZE
  let query := query.getD []
  _build_query query offset limit

/-- What `_Model.search` does with the built request: either short-circuit
to an empty list without a transport call (when the built dict is falsy,
i.e. empty), or delegate the request to `search_raw`. -/
inductive SearchAction where
  | emptyList
  | delegate (q : Doc)

/-- Classmethod `_Model.search`: builds the request and either
short-circuits (empty build) or delegates it to `search_raw`. -/
def Model_search (query : Option Doc) (offset limit : Option Int) : SearchAction :=
  let q := Model_build_query query offset limit
  if q.isEmpty then SearchAction.emptyList else SearchAction.delegate q

/-- Module-level `_add_created(ann)`: stamp `created` only when absent;
the timestamp taken by `datetime.datetime.now(UTC).isoformat()` is the
explicit argument `now`. -/
def _add_created (ann : Doc) (now : String) : Doc :=
  if dictContains ann "created" then ann else dictSet ann "created" (JVal.str now)

/-- Module-level `_add_updated(ann)`: stamp `updated` unconditionally. -/
def _add_updated (ann : Doc) (now : String) : Doc :=
  dictSet ann "updated" (JVal.str now)

/-- The write issued by `save` via `conn.index(...)`: its body, `op_type`
and `refresh` arguments. -/
structure IndexRequest where
  body : Doc
  op_type : String
  refresh : Bool

/-- Method `_Model.save(refresh)`: stamps `created`/`updated`, chooses the
`op_type` by the presence of `id`, issues the write, and writes the id the
engine returns (`res` with key `_id`, the explicit argument `res_id`) back
onto the document. The result pairs the issued request with the document
state after the write-back. -/
def Model_save (self : Doc) (refresh : Bool) (nowCreated nowUpdated res_id : String) :
    IndexRequest × Doc :=
  let self := _add_created self nowCreated
  let self := _add_updated self nowUpdated
  let op_type := if dictContains self "id" then "index" else "create"
  (⟨self, op_type, refresh⟩, dictSet self "id" (JVal.str res_id))

/-- Classmethod `_Model.get_mapping()`: the mapping body sent to the engine,
with the `_id` path directive, the `_source` excludes directive, the default
`keyword` analyzer and the declared field properties (`__mapping__`, here
the argument `mapping`), all under the type name (`__type__`). -/
def Model_get_mapping (type_name : String) (mapping : JVal) : JVal :=
  JVal.obj [(type_name, JVal.obj [
    ("_id", JVal.obj [("path", JVal.str "id")]),
    ("_source", JVal.obj [("excludes", JVal.arr [JVal.str "id"])]),
    ("analyzer", JVal.str "keyword"),
    ("properties", mapping)])]

/-- The `excludes` list of the `_source` directive of a mapping body, for a
given type name. -/
def sourceExcludes (m : JVal) (type_name : String) : List String :=
  match objGet m type_name with
  | some tm =>
    match objGet tm "_source" with
    | some sm =>
      match objGet sm "excludes" with
      | some (.arr xs) => xs.filterMap (fun j => match j with | .str s => some s | _ => none)
      | _ => []
    | _ => []
  | none => []

/-- The `path` of the `_id` directive of a mapping body, for a given type
name. -/
def idPath (m : JVal) (type_name : String) : Option String :=
  match objGet m type_name with
  | some tm =>
    match objGet tm "_id" with
    | some im =>
      match objGet im "path" with
      | some (.str s) => some s
      | _ => none
    | _ => none
  | none => none

/-- Modelled from the spec: the engine-side effect of the mapping directive
"exclude `id` from the stored body" (`_source.excludes`) — the stored body
is the transmitted body with every excluded field removed; the excluded
`id` value is routed to the document identifier instead. The engine itself
is an external collaborator, outside the repository's source. -/
def storedBody (excludes : List String) : Doc → Doc
  | [] => []
  | kv :: rest =>
    if excludes.contains kv.1 then storedBody excludes rest
    else kv :: storedBody excludes rest

/-- Exceptions the transport can raise, as the code classifies them:
`elasticsearch.exceptions.RequestError` carrying its `error` string (which
the code inspects by prefix), `elasticsearch.exceptions.NotFoundError`, and
any other exception class (by name). -/
inductive ESExc where
  | requestError (error : String)
  | notFoundError
  | other (name : String)
deriving DecidableEq

/-- Outcome of `_Model.create_all()`: normal return, an exception
propagated to the caller unchanged, or the `RuntimeError` the code raises
for a mapping merge conflict (carrying its message). -/
inductive CreateAllResult where
  | ok
  | raised (e : ESExc)
  | runtimeError (msg : String)
deriving DecidableEq

/-- Python `str.startswith` (used on the `error` attribute of a
`RequestError`), over the characters of the strings. -/
def listStartsWith : List Char → List Char → Bool
  | _, [] => true
  | [], _ :: _ => false
  | c :: cs, p :: ps => (c == p) && listStartsWith cs ps

/-- Python `s.startswith(pre)`. -/
def strStartsWith (s pre : String) : Bool :=
  listStartsWith s.data pre.data

/-- The test `e.error.startswith(...)` deciding that index creation failed
only because the index (or an alias of that name) already exists. -/
def isAlreadyExistsError (s : String) : Bool :=
  strStartsWith s "IndexAlreadyExistsException" || strStartsWith s "InvalidIndexNameException"

/-- The `RuntimeError` message for a mapping merge conflict, as formatted
by the source (`.format(cls.es.host, cls.es.index, date)` with
`date = time.strftime(%Y-%m-%d)`, the current date). -/
def mergeMessage (host index date : String) : String :=
  "Elasticsearch index mapping is incorrect! Please reindex it. E.g. use annotator-store\x27s reindex.py: $ python reindex.py --host "
    ++ host ++ " --alias " ++ index ++ " " ++ index ++ " " ++ index ++ "_" ++ date

/-- The `put_mapping` step of `create_all`: a `RequestError` whose `error`
starts with `MergeMappingException` becomes the `RuntimeError`; any other
`RequestError` is caught and the except block falls through (no re-raise);
exceptions of other classes are not caught and propagate. -/
def put_mapping_step (host index date : String) (putOutcome : Option ESExc) :
    CreateAllResult :=
  match putOutcome with
  | none => CreateAllResult.ok
  | some (ESExc.requestError s) =>
    if strStartsWith s "MergeMappingException" then
      CreateAllResult.runtimeError (mergeMessage host index date)
    else
      CreateAllResult.ok
  | some e => CreateAllResult.raised e

/-- Classmethod `_Model.create_all()`, as a function of the outcomes of its
two engine calls (`indices.create` and `indices.put_mapping`, each `none`
for success or `some e` for a raised exception): an index-creation
`RequestError` that is not an already-exists condition is re-raised (any
other exception class propagates uncaught); an already-exists condition is
absorbed and the mapping step still runs. -/
def Model_create_all (host index date : String)
    (createOutcome putOutcome : Option ESExc) : CreateAllResult :=
  match createOutcome with
  | none => put_mapping_step host index date putOutcome
  | some (ESExc.requestError s) =>
    if isAlreadyExistsError s then
      put_mapping_step host index date putOutcome
    else
      CreateAllResult.raised (ESExc.requestError s)
  | some e => CreateAllResult.raised e

/-- Outcome of the `conn.get` call inside `fetch`: a document body
(`doc` with key `_source`) or a raised exception. -/
inductive FetchOutcome where
  | found (source : Doc)
  | exc (e : ESExc)

/-- Result of `_Model.fetch(id)`: the Python `None`, a document instance,
or an exception propagated to the caller. -/
inductive FetchResult where
  | none
  | doc (d : Doc)
  | raised (e : ESExc)

/-- Classmethod `_Model.fetch(id)`: `None` on `NotFoundError`, otherwise a
model instance built as `cls(doc[_source], id=id)` — the source body with
`id` set to the requested id; any other exception propagates uncaught. -/
def Model_fetch (id : String) (outcome : FetchOutcome) : FetchResult :=
  match outcome with
  | FetchOutcome.exc ESExc.notFoundError => FetchResult.none
  | FetchOutcome.exc e => FetchResult.raised e
  | FetchOutcome.found source => FetchResult.doc (dictSet source "id" (JVal.str id))


/-! Helper lemmas about the dict operations. -/

theorem beq_false_of_ne_str (a b : String) (h : a ≠ b) : (a == b) = false := by
  cases hbe : a == b
  · rfl
  · exact absurd (eq_of_beq hbe) h

theorem dictGet_dictSet_self (d : Doc) (k : String) (v : JVal) :
    dictGet (dictSet d k v) k = some v := by
  induction d with
  | nil => simp [dictSet, dictGet]
  | cons kv rest ih =>
    cases hk : kv.1 == k with
    | true => simp [dictSet, dictGet, hk]
    | false => simp [dictSet, dictGet, hk, ih]

theorem dictGet_dictSet_ne (d : Doc) (k kq : String) (v : JVal) (h : kq ≠ k) :
    dictGet (dictSet d k v) kq = dictGet d kq := by
  induction d with
  | nil =>
    have hke : (k == kq) = false := beq_false_of_ne_str k kq (Ne.symm h)
    simp [dictSet, dictGet, hke]
  | cons kv rest ih =>
    cases hk : kv.1 == k with
    | true =>
      have hkq : (kv.1 == kq) = false := by
        rw [eq_of_beq hk]
        exact beq_false_of_ne_str k kq (Ne.symm h)
      simp [dictSet, dictGet, hk, hkq]
    | false =>
      cases hq : kv.1 == kq with
      | true => simp [dictSet, dictGet, hk, hq]
      | false => simp [dictSet, dictGet, hk, hq, ih]

theorem dictContains_dictSet (d : Doc) (k kq : String) (v : JVal) :
    dictContains (dictSet d k v) kq = ((k == kq) || dictContains d kq) := by
  induction d with
  | nil => simp [dictSet, dictContains]
  | cons kv rest ih =>
    cases hk : kv.1 == k with
    | true =>
      have hkv := eq_of_beq hk
      subst hkv
      cases h1 : kv.1 == kq <;> simp [dictSet, dictContains, h1]
    | false =>
      cases h1 : kv.1 == kq <;> cases h2 : k == kq <;>
        simp [dictSet, dictContains, hk, h1, h2, ih]

theorem dictContains_storedBody_excluded (b : Doc) (k : String) (ex : List String)
    (h : ex.contains k = true) :
    dictContains (storedBody ex b) k = false := by
  induction b with
  | nil => rfl
  | cons kv rest ih =>
    cases hx : ex.contains kv.1 with
    | true =>
      have hmem : kv.1 ∈ ex := by simpa using hx
      simpa [storedBody, hmem] using ih
    | false =>
      have hmem : kv.1 ∉ ex := by simpa using hx
      have hne : (kv.1 == k) = false := by
        cases hbe : kv.1 == k
        · rfl
        · rw [eq_of_beq hbe] at hx
          rw [hx] at h
          exact Bool.noConfusion h
      simp [storedBody, dictContains, hmem, hne, ih]

/-! Claim theorems. -/

/-- C1: for every empty query specification (zero field/value pairs), the
request built by `_build_query` contains, in place of per-field clauses, a
single `match_all` clause inside the boolean conjunction (`bool.must`), so
the empty conjunction is never sent as-is; likewise when `_Model._build_query`
substitutes the default empty specification for `None`. -/
theorem empty_query_match_all (offset limit : Int) (oOpt lOpt : Option Int) :
    dictGet (_build_query [] offset limit) "query"
      = some (JVal.obj [("bool", JVal.obj [("must",
          JVal.arr [JVal.obj [("match_all", JVal.obj [])]])])]) ∧
    dictGet (Model_build_query none oOpt lOpt) "query"
      = some (JVal.obj [("bool", JVal.obj [("must",
          JVal.arr [JVal.obj [("match_all", JVal.obj [])]])])]) :=
  ⟨rfl, rfl⟩

/-- C2: for every offset and limit, the request built by `_build_query` has
`from` equal to `max 0 offset` and `size` equal to `min 200 (max 0 limit)`;
when the caller passes `None` for offset or limit, `_Model._build_query`
substitutes the defaults 0 and 20 first, so an unspecified offset yields
`from = 0` and an unspecified limit yields `size = 20`. -/
theorem pagination_bounds (q : Doc) (offset limit : Int) :
    dictGet (_build_query q offset limit) "from" = some (JVal.num (max 0 offset)) ∧
    dictGet (_build_query q offset limit) "size"
      = some (JVal.num (min 200 (max 0 limit))) ∧
    dictGet (Model_build_query (some q) none none) "from" = some (JVal.num 0) ∧
    dictGet (Model_build_query (some q) none none) "size" = some (JVal.num 20) :=
  ⟨rfl, rfl, rfl, rfl⟩

/-- C8: for every non-empty query specification, the request built by
`_build_query` has, under `query.bool.must`, exactly one match clause per
field/value pair of the specification (the clause `match {field: value}`),
all combined conjunctively in the `must` list. -/
theorem nonempty_query_match_clauses (q : Doc) (offset limit : Int) (h : q ≠ []) :
    dictGet (_build_query q offset limit) "query"
      = some (JVal.obj [("bool", JVal.obj [("must",
          JVal.arr (q.map (fun kv => JVal.obj [("match", JVal.obj [kv])])))])]) ∧
    (q.map (fun kv => JVal.obj [("match", JVal.obj [kv])])).length = q.length := by
  cases q with
  | nil => exact absurd rfl h
  | cons kv rest => exact ⟨rfl, by simp⟩

/-- Witness for `nonempty_query_match_clauses` at the concrete one-field
specification `{author: alice}`. -/
theorem nonempty_query_match_clauses_witness :
    dictGet (_build_query [("author", JVal.str "alice")] 0 1) "query"
      = some (JVal.obj [("bool", JVal.obj [("must",
          JVal.arr [JVal.obj [("match", JVal.obj [("author", JVal.str "alice")])]])])]) :=
  (nonempty_query_match_clauses [("author", JVal.str "alice")] 0 1
    (List.cons_ne_nil _ _)).1

/-- C9: for every query specification, offset and limit, the built request
carries a sort instruction on the `updated` field, descending, marked
`ignore_unmapped` so it is ignored rather than rejected when the field is
unmapped; likewise through `_Model._build_query` for any optional
arguments. -/
theorem sort_updated_desc_ignore_unmapped (q : Doc) (offset limit : Int)
    (qOpt : Option Doc) (oOpt lOpt : Option Int) :
    dictGet (_build_query q offset limit) "sort"
      = some (JVal.arr [JVal.obj [("updated", JVal.obj [
          ("order", JVal.str "desc"),
          ("ignore_unmapped", JVal.bool true)])]]) ∧
    dictGet (Model_build_query qOpt oOpt lOpt) "sort"
      = some (JVal.arr [JVal.obj [("updated", JVal.obj [
          ("order", JVal.str "desc"),
          ("ignore_unmapped", JVal.bool true)])]]) :=
  ⟨rfl, rfl⟩

/-- C10: for every query specification, offset and limit, the request
returned by `_Model._build_query` is non-empty — it always carries exactly
the four keys `sort`, `from`, `size` and `query` — so `search` never takes
its short-circuit branch and always delegates the built request to
`search_raw`. -/
theorem build_query_always_nonempty (query : Option Doc) (offset limit : Option Int) :
    (Model_build_query query offset limit).map Prod.fst = ["sort", "from", "size", "query"] ∧
    Model_search query offset limit
      = SearchAction.delegate (Model_build_query query offset limit) :=
  ⟨rfl, rfl⟩

/-- C3: for every document and every refresh flag, `save` stamps `created`
only if absent and `updated` unconditionally in the body it sends; it uses
`op_type = create` exactly when the document has no `id` key and
`op_type = index` when `id` is present; the `refresh` flag is passed
through; on success the id returned by the engine is written back onto the
document under `id`. -/
theorem save_stamps_and_op_type (self : Doc) (refresh : Bool) (nc nu rid : String) :
    dictGet (Model_save self refresh nc nu rid).1.body "updated" = some (JVal.str nu) ∧
    dictGet (Model_save self refresh nc nu rid).1.body "created"
      = (if dictContains self "created" then dictGet self "created"
         else some (JVal.str nc)) ∧
    (Model_save self refresh nc nu rid).1.op_type
      = (if dictContains self "id" then "index" else "create") ∧
    (Model_save self refresh nc nu rid).1.refresh = refresh ∧
    dictGet (Model_save self refresh nc nu rid).2 "id" = some (JVal.str rid) := by
  have hupd : dictGet (_add_updated (_add_created self nc) nu) "updated"
      = some (JVal.str nu) :=
    dictGet_dictSet_self (_add_created self nc) "updated" (JVal.str nu)
  have hcr : dictGet (_add_updated (_add_created self nc) nu) "created"
      = (if dictContains self "created" then dictGet self "created"
         else some (JVal.str nc)) := by
    have step : dictGet (_add_updated (_add_created self nc) nu) "created"
        = dictGet (_add_created self nc) "created" :=
      dictGet_dictSet_ne (_add_created self nc) "updated" "created" (JVal.str nu)
        (by decide)
    rw [step]
    cases hc : dictContains self "created" with
    | true => simp [_add_created, hc]
    | false =>
      simp only [_add_created, hc, Bool.false_eq_true, if_false]
      exact dictGet_dictSet_self self "created" (JVal.str nc)
  have hid : dictContains (_add_updated (_add_created self nc) nu) "id"
      = dictContains self "id" := by
    have step : dictContains (dictSet (_add_created self nc) "updated" (JVal.str nu)) "id"
        = (("updated" == "id") || dictContains (_add_created self nc) "id") :=
      dictContains_dictSet (_add_created self nc) "updated" "id" (JVal.str nu)
    rw [show _add_updated (_add_created self nc) nu
        = dictSet (_add_created self nc) "updated" (JVal.str nu) from rfl, step]
    have hne : ("updated" == "id") = false := by decide
    rw [hne, Bool.false_or]
    cases hc : dictContains self "created" with
    | true => simp [_add_created, hc]
    | false =>
      simp only [_add_created, hc, Bool.false_eq_true, if_false]
      rw [dictContains_dictSet self "created" "id" (JVal.str nc)]
      have hne2 : ("created" == "id") = false := by decide
      rw [hne2, Bool.false_or]
  refine ⟨hupd, hcr, ?_, rfl, ?_⟩
  · show (if dictContains (_add_updated (_add_created self nc) nu) "id"
        then "index" else "create")
      = (if dictContains self "id" then "index" else "create")
    rw [hid]
  · exact dictGet_dictSet_self (_add_updated (_add_created self nc) nu) "id" (JVal.str rid)

/-- C4: the mapping installed for a collection excludes `id` from the
stored source (`_source.excludes = [id]`) and routes the `id` value to the
engine's per-document identifier (`_id.path = id`); consequently, for every
document written by `save`, the stored body the engine keeps for the
transmitted body never contains the `id` field — `id` is carried only as
the external identifier. -/
theorem id_excluded_from_stored_body (type_name : String) (fm : JVal) (self : Doc)
    (refresh : Bool) (nc nu rid : String) :
    sourceExcludes (Model_get_mapping type_name fm) type_name = ["id"] ∧
    idPath (Model_get_mapping type_name fm) type_name = some "id" ∧
    dictContains
      (storedBody (sourceExcludes (Model_get_mapping type_name fm) type_name)
        (Model_save self refresh nc nu rid).1.body) "id" = false := by
  have hex : sourceExcludes (Model_get_mapping type_name fm) type_name = ["id"] := by
    simp [sourceExcludes, Model_get_mapping, objGet, List.find?]
  have hip : idPath (Model_get_mapping type_name fm) type_name = some "id" := by
    simp [idPath, Model_get_mapping, objGet, List.find?]
  refine ⟨hex, hip, ?_⟩
  rw [hex]
  exact dictContains_storedBody_excluded (Model_save self refresh nc nu rid).1.body
    "id" ["id"] (by decide)

/-- C5 counterexample: the claim says a `put_mapping` engine error that is
not a recognizable mapping merge conflict is logged and re-raised to the
caller unchanged. In the code the `except` clause catches every
`RequestError` and, when the error does not start with
`MergeMappingException`, falls through without re-raising: at the concrete
error `ElasticsearchIllegalArgumentException` the call completes normally
(`ok`), it is not re-raised. -/
theorem put_mapping_error_swallowed_cex :
    Model_create_all "http://localhost:9200" "annotator" "2026-10-12" none
        (some (ESExc.requestError "ElasticsearchIllegalArgumentException"))
      = CreateAllResult.ok ∧
    CreateAllResult.ok
      ≠ CreateAllResult.raised
          (ESExc.requestError "ElasticsearchIllegalArgumentException") := by
  constructor
  · rfl
  · decide

/-- C5 amended: a `put_mapping` `RequestError` that is not a recognizable
mapping merge conflict is silently absorbed by `create_all` (the except
clause falls through: the call returns normally, nothing is logged or
re-raised); only exceptions of other classes propagate to the caller
unchanged. -/
theorem put_mapping_nonmerge_absorbed (host index date t name : String)
    (h : strStartsWith t "MergeMappingException" = false) :
    Model_create_all host index date none (some (ESExc.requestError t))
      = CreateAllResult.ok ∧
    Model_create_all host index date none (some (ESExc.other name))
      = CreateAllResult.raised (ESExc.other name) := by
  constructor
  · simp [Model_create_all, put_mapping_step, h]
  · rfl

/-- Witness for `put_mapping_nonmerge_absorbed` at the concrete error
`MapperParsingException` and the concrete exception class
`ConnectionError`. -/
theorem put_mapping_nonmerge_absorbed_witness :
    Model_create_all "http://localhost:9200" "annotator" "2026-10-12" none
        (some (ESExc.requestError "MapperParsingException")) = CreateAllResult.ok ∧
    Model_create_all "http://localhost:9200" "annotator" "2026-10-12" none
        (some (ESExc.other "ConnectionError"))
      = CreateAllResult.raised (ESExc.other "ConnectionError") :=
  put_mapping_nonmerge_absorbed "http://localhost:9200" "annotator" "2026-10-12"
    "MapperParsingException" "ConnectionError" (by decide)

/-- C6: among the engine-reported request errors, `create_all` raises
exactly in these cases: an index-creation `RequestError` that is not a
recognizable already-exists condition is re-raised; an already-exists
condition is absorbed as success and the run continues with the mapping
step; a mapping merge conflict becomes the `RuntimeError` whose message is
`mergeMessage`, which carries the rollover index-name suggestion
`index_date` (with `date` the current date, `YYYY-MM-DD`) and hence the
index name; a non-merge `RequestError` from the mapping step does not
raise, and neither does the error-free run. -/
theorem create_all_raise_cases (host index date s t : String) (put : Option ESExc) :
    (isAlreadyExistsError s = false →
      Model_create_all host index date (some (ESExc.requestError s)) put
        = CreateAllResult.raised (ESExc.requestError s)) ∧
    (isAlreadyExistsError s = true →
      Model_create_all host index date (some (ESExc.requestError s)) put
        = Model_create_all host index date none put) ∧
    (strStartsWith t "MergeMappingException" = true →
      Model_create_all host index date none (some (ESExc.requestError t))
        = CreateAllResult.runtimeError (mergeMessage host index date)) ∧
    (strStartsWith t "MergeMappingException" = false →
      Model_create_all host index date none (some (ESExc.requestError t))
        = CreateAllResult.ok) ∧
    Model_create_all host index date none none = CreateAllResult.ok ∧
    (∃ pre, mergeMessage host index date = pre ++ index ++ "_" ++ date) := by
  refine ⟨?_, ?_, ?_, ?_, rfl, ?_⟩
  · intro h
    simp [Model_create_all, h]
  · intro h
    simp [Model_create_all, h]
  · intro h
    simp [Model_create_all, put_mapping_step, h]
  · intro h
    simp [Model_create_all, put_mapping_step, h]
  · exact ⟨"Elasticsearch index mapping is incorrect! Please reindex it. E.g. use annotator-store\x27s reindex.py: $ python reindex.py --host "
      ++ host ++ " --alias " ++ index ++ " " ++ index ++ " ", rfl⟩

/-- Witness for `create_all_raise_cases` at concrete errors: a
`MapperParsingException` during index creation is re-raised, an
`IndexAlreadyExistsException` is absorbed, and a `MergeMappingException`
from the mapping step becomes the `RuntimeError` carrying the merge
message. -/
theorem create_all_raise_cases_witness :
    Model_create_all "http://localhost:9200" "annotator" "2026-10-12"
        (some (ESExc.requestError "MapperParsingException[failed to parse]")) none
      = CreateAllResult.raised
          (ESExc.requestError "MapperParsingException[failed to parse]") ∧
    Model_create_all "http://localhost:9200" "annotator" "2026-10-12"
        (some (ESExc.requestError "IndexAlreadyExistsException[[annotator] already exists]"))
        none
      = Model_create_all "http://localhost:9200" "annotator" "2026-10-12" none none ∧
    Model_create_all "http://localhost:9200" "annotator" "2026-10-12" none
        (some (ESExc.requestError "MergeMappingException[Merge failed]"))
      = CreateAllResult.runtimeError
          (mergeMessage "http://localhost:9200" "annotator" "2026-10-12") :=
  ⟨(create_all_raise_cases "http://localhost:9200" "annotator" "2026-10-12"
      "MapperParsingException[failed to parse]" "x" none).1 (by decide),
   (create_all_raise_cases "http://localhost:9200" "annotator" "2026-10-12"
      "IndexAlreadyExistsException[[annotator] already exists]" "x" none).2.1 (by decide),
   (create_all_raise_cases "http://localhost:9200" "annotator" "2026-10-12"
      "s" "MergeMappingException[Merge failed]" none).2.2.1 (by decide)⟩

/-- C7: for every id, `fetch` returns the Python `None` exactly when the
engine raises the not-found condition; a successful lookup returns a single
document instance built from the returned body with the requested id
attached; any other exception propagates uncaught to the caller. -/
theorem fetch_absence_iff_not_found (id : String) (outcome : FetchOutcome) :
    (Model_fetch id outcome = FetchResult.none
      ↔ outcome = FetchOutcome.exc ESExc.notFoundError) ∧
    (∀ src, Model_fetch id (FetchOutcome.found src)
      = FetchResult.doc (dictSet src "id" (JVal.str id))) ∧
    (∀ e, e ≠ ESExc.notFoundError →
      Model_fetch id (FetchOutcome.exc e) = FetchResult.raised e) := by
  refine ⟨⟨?_, ?_⟩, fun src => rfl, ?_⟩
  · intro h
    cases outcome with
    | found src => exact FetchResult.noConfusion h
    | exc e =>
      cases e with
      | notFoundError => rfl
      | requestError s => exact FetchResult.noConfusion h
      | other n => exact FetchResult.noConfusion h
  · intro h
    subst h
    rfl
  · intro e he
    cases e with
    | notFoundError => exact absurd rfl he
    | requestError s => rfl
    | other n => rfl

/-- Witness for `fetch_absence_iff_not_found`: a not-found condition at the
concrete id `missing-id` yields `None`, and a concrete `ConnectionError`
propagates. -/
theorem fetch_absence_iff_not_found_witness :
    Model_fetch "missing-id" (FetchOutcome.exc ESExc.notFoundError) = FetchResult.none ∧
    Model_fetch "a1" (FetchOutcome.exc (ESExc.other "ConnectionError"))
      = FetchResult.raised (ESExc.other "ConnectionError") :=
  ⟨(fetch_absence_iff_not_found "missing-id"
      (FetchOutcome.exc ESExc.notFoundError)).1.mpr rfl,
   (fetch_absence_iff_not_found "a1"
      (FetchOutcome.exc (ESExc.other "ConnectionError"))).2.2
     (ESExc.other "ConnectionError") (by decide)⟩
